import Mathlib

/-!
Verification of the skyline output plugin (`plugins/outputs/skyline/skyline.go`):
per-monitor metric filtering and aggregation, formula-based threshold evaluation
with hysteresis state transitions, and alert message production.

The Go source is shallowly embedded: Go `interface{}` field values become the
`Value` inductive, Go maps become association lists, floating-point values are
idealised as rationals, and functions that can panic return `Option` (with
`none` modelling a panic).  External capabilities that the plugin consumes
(Go's `regexp` and `strconv`/`fmt` standard-library functions, the govaluate
expression engine, the statsd `RunningStats` accumulator) are modelled from
their documented semantics / from the spec, as noted on each definition.
-/

attribute [local semireducible] Rat.add Rat.mul Rat.inv Rat.sub

namespace Skyline

/-- Model of a Go `interface{}` value as it appears in metric fields and
evaluation parameters.  Go's `float64`/`float32` cases collapse onto `float`,
and `int64`/`int32`/`int`/`uint64`/`uint32`/`uint` collapse onto `int`. -/
inductive Value where
  | float (q : ℚ)
  | int (n : ℤ)
  | str (s : String)
  | bool (b : Bool)
deriving DecidableEq, Repr

/-- Digit value of a character for bases up to 16 (99 marks a non-digit). -/
def digitVal (c : Char) : ℕ :=
  if '0' ≤ c ∧ c ≤ '9' then c.toNat - 48
  else if 'a' ≤ c ∧ c ≤ 'f' then c.toNat - 87
  else if 'A' ≤ c ∧ c ≤ 'F' then c.toNat - 55
  else 99

/-- Interpret a nonempty digit string in the given base; `none` on a bad digit. -/
def parseDigits (base : ℕ) (cs : List Char) : Option ℕ :=
  if cs = [] then none
  else cs.foldl (fun acc c =>
    acc.bind fun a => if digitVal c < base then some (a * base + digitVal c) else none)
    (some 0)

/-- Modelled from Go `strconv.ParseInt(s, 0, 64)` (stdlib, documented
semantics): optional sign; base chosen by prefix (`0b`/`0o`/`0x`, a leading
`0` meaning octal, otherwise decimal); the result must fit in a signed 64-bit
integer, else an error.  Underscore digit separators are not modelled (no
claim involves them). -/
def parseIntBase0 (s : String) : Except String ℤ :=
  let cs := s.toList
  let signed : Bool × List Char :=
    match cs with
    | '-' :: t => (true, t)
    | '+' :: t => (false, t)
    | t => (false, t)
  let based : ℕ × List Char :=
    match signed.2 with
    | '0' :: 'x' :: t => (16, t)
    | '0' :: 'X' :: t => (16, t)
    | '0' :: 'o' :: t => (8, t)
    | '0' :: 'O' :: t => (8, t)
    | '0' :: 'b' :: t => (2, t)
    | '0' :: 'B' :: t => (2, t)
    | '0' :: t => if t = [] then (10, ['0']) else (8, t)
    | t => (10, t)
  match parseDigits based.1 based.2 with
  | none => .error "invalid syntax"
  | some n =>
    let v : ℤ := if signed.1 then -(n : ℤ) else (n : ℤ)
    if v < -(2 ^ 63) ∨ 2 ^ 63 - 1 < v then .error "value out of range" else .ok v

/-- Modelled from Go `strconv.ParseFloat` (stdlib, documented semantics),
restricted to the decimal syntax fragment: optional sign, decimal digits with
an optional fractional part and an optional decimal exponent.  (`Inf`, `NaN`
and hexadecimal floats are not modelled; no claim involves them.) -/
def parseFloat (s : String) : Except String ℚ :=
  let cs := s.toList
  let signed : Bool × List Char :=
    match cs with
    | '-' :: t => (true, t)
    | '+' :: t => (false, t)
    | t => (false, t)
  let mant := signed.2.takeWhile (fun c => ¬(c = 'e' ∨ c = 'E'))
  let rest := signed.2.drop mant.length
  let ip := mant.takeWhile (fun c => c ≠ '.')
  let fpDot := mant.drop ip.length
  let fp := fpDot.drop 1
  let okShape : Bool :=
    (fpDot = [] ∨ fpDot.take 1 = ['.']) ∧ fp.all (fun c => digitVal c < 10) ∧
      ip.all (fun c => digitVal c < 10) ∧ (ip ≠ [] ∨ fp ≠ [])
  if ¬okShape then .error "invalid syntax"
  else
    let mval : ℚ :=
      ((parseDigits 10 (ip ++ fp)).getD 0 : ℚ) / (10 : ℚ) ^ fp.length
    let mval := if signed.1 then -mval else mval
    match rest with
    | [] => .ok mval
    | _ :: etail =>
      let esigned : Bool × List Char :=
        match etail with
        | '-' :: t => (true, t)
        | '+' :: t => (false, t)
        | t => (false, t)
      match parseDigits 10 esigned.2 with
      | none => .error "invalid syntax"
      | some e =>
        .ok (if esigned.1 then mval / (10 : ℚ) ^ e else mval * (10 : ℚ) ^ e)

/-- Embedding of `getFloat` (skyline.go lines 59-82): numeric `interface{}`
values convert directly, strings go through `strconv.ParseFloat`, and
anything else is the non-numeric-type error. -/
def getFloat : Value → Except String ℚ
  | .float q => .ok q
  | .int n => .ok (n : ℚ)
  | .str s => parseFloat s
  | .bool _ => .error "Non-numeric type could not be converted to float"

/-- Decimal digits of a natural number (most significant first), with fuel. -/
def natDigitsAux : ℕ → ℕ → List Char
  | 0, _ => []
  | _ + 1, 0 => []
  | f + 1, n => natDigitsAux f (n / 10) ++ [Char.ofNat (48 + n % 10)]

/-- Decimal rendering of a natural number. -/
def natToString (n : ℕ) : String :=
  if n = 0 then "0" else ⟨natDigitsAux (n + 1) n⟩

/-- Decimal digits of the fractional part of a rational in `[0, 1)`, with
fuel; stops when the expansion terminates. -/
def fracDigitsAux : ℕ → ℚ → List Char
  | 0, _ => []
  | f + 1, q =>
    if q = 0 then []
    else
      let d := ((q * 10).floor).toNat
      Char.ofNat (48 + d % 10) :: fracDigitsAux f (q * 10 - (q * 10).floor)

/-- Modelled from Go `fmt.Sprintf("%v", x)` on a `float64` (stdlib, documented
shortest-decimal formatting): integers render bare, other values render with
their decimal expansion.  Exact for values whose decimal expansion terminates
within the fuel, which covers every value appearing in the claims. -/
def ratToString (q : ℚ) : String :=
  let sign := if q < 0 then "-" else ""
  let aq := |q|
  let ip := aq.floor.toNat
  let frac := aq - aq.floor
  if frac = 0 then sign ++ natToString ip
  else sign ++ natToString ip ++ "." ++ ⟨fracDigitsAux 30 frac⟩

/-- Modelled from Go `fmt.Sprintf("%.1f", x)` (stdlib): one digit after the
decimal point; rounding is half-away-from-zero at the model level (exact for
the values appearing in the claims, which need no rounding). -/
def fmtDot1 (q : ℚ) : String :=
  let sign := if q < 0 then "-" else ""
  let n := (|q| * 10 + 1 / 2).floor.toNat
  sign ++ natToString (n / 10) ++ "." ++ natToString (n % 10)

/-- Floor of the base-1000 logarithm, with fuel (idealisation of
`uint(math.Log(fv) / math.Log(1000))` in exact real arithmetic). -/
def log1000Aux : ℕ → ℕ → ℕ
  | 0, _ => 0
  | f + 1, n => if n < 1000 then 0 else log1000Aux f (n / 1000) + 1

/-- Embedding of `shortenNumber` (skyline.go lines 84-91).  The unchecked
type assertion `v.(float64)` panics on a non-float value, and the string
indexing `"kmgtpe"[exp-1]` panics when `exp - 1 ≥ 6`; both panics are
modelled as `none`. -/
def shortenNumber (v : Value) : Option String :=
  match v with
  | .float q =>
    if q < 1000 then some (ratToString q)
    else
      let exp := log1000Aux q.floor.toNat q.floor.toNat
      if exp - 1 < 6 then
        some (fmtDot1 (q / (1000 : ℚ) ^ exp) ++ ⟨["kmgtpe".toList.getD (exp - 1) ' ']⟩)
      else none
  | _ => none

/-- Modelled from Go's `regexp` package (stdlib, documented semantics):
the regular-expression fragment used by monitor patterns.  `chr` is a literal
character, `any` is the metacharacter `.`. -/
inductive Regex where
  | emp
  | eps
  | chr (c : Char)
  | any
  | cat (r s : Regex)
  | alt (r s : Regex)
  | star (r : Regex)
deriving DecidableEq, Repr

/-- Whether the regex accepts the empty string. -/
def Regex.nullable : Regex → Bool
  | .emp => false
  | .eps => true
  | .chr _ => false
  | .any => false
  | .cat r s => r.nullable && s.nullable
  | .alt r s => r.nullable || s.nullable
  | .star _ => true

/-- Brzozowski derivative of the regex by a character. -/
def Regex.deriv : Regex → Char → Regex
  | .emp, _ => .emp
  | .eps, _ => .emp
  | .chr c, a => if a = c then .eps else .emp
  | .any, _ => .eps
  | .cat r s, a =>
    if r.nullable then .alt (.cat (r.deriv a) s) (s.deriv a) else .cat (r.deriv a) s
  | .alt r s, a => .alt (r.deriv a) (s.deriv a)
  | .star r, a => .cat (r.deriv a) (.star r)

/-- Whole-string regex matching via Brzozowski derivatives. -/
def rmatch (r : Regex) (cs : List Char) : Bool :=
  (cs.foldl Regex.deriv r).nullable

/-- Modelled from Go `regexp.Regexp.MatchString` (stdlib, documented
semantics): reports whether the string CONTAINS any match of the regular
expression, i.e. whether some substring matches — not whole-string
matching. -/
def Regex.matchString (r : Regex) (s : String) : Bool :=
  s.toList.tails.any fun t => t.inits.any fun p => rmatch r p

/-- The regex denoting a literal string (a pattern with no metacharacters). -/
def Regex.lit (s : String) : Regex :=
  s.toList.foldr (fun c r => .cat (.chr c) r) .eps

/-- Replace every non-overlapping occurrence of `pat` in `s` by `rep`,
scanning left to right; fuelled structural recursion (the callers pass the
length of `s` as fuel, which always suffices). -/
def replaceAllGo (pat rep : List Char) : ℕ → List Char → List Char
  | _, [] => []
  | 0, s => s
  | f + 1, c :: rest =>
    if pat ≠ [] ∧ pat.isPrefixOf (c :: rest) then
      rep ++ replaceAllGo pat rep f (rest.drop (pat.length - 1))
    else c :: replaceAllGo pat rep f rest

/-- Modelled from Go `strings.ReplaceAll` (stdlib, documented semantics) for
a nonempty pattern: replaces all non-overlapping instances of `pat` with
`rep`, left to right.  (For an empty pattern Go inserts `rep` at every
position; variable names are never empty, so that case is modelled as the
identity.) -/
def replaceAllStr (s pat rep : String) : String :=
  ⟨replaceAllGo pat.toList rep.toList s.toList.length s.toList⟩

/-- Modelled from Go `strings.Contains` (stdlib). -/
def containsSub (hay needle : List Char) : Bool :=
  hay.tails.any needle.isPrefixOf

/-- Modelled from Go `strings.HasPrefix` (stdlib). -/
def strStartsWith (s pre : String) : Bool :=
  pre.toList.isPrefixOf s.toList

/-- Modelled from the spec: the expression capability (govaluate), restricted
to the comparison fragment `variable > constant` that the configured alert
formulas use (`compile(formula) -> expression`, `expression.variables()`,
`expression.evaluate(bindings) -> bool | EvalError`). -/
inductive Expr where
  | gt (v : String) (c : ℚ)
deriving DecidableEq, Repr

/-- Modelled from the spec: `expression.variables()` — the variable names of
the compiled expression in order of appearance. -/
def exprVars : Expr → List String
  | .gt v _ => [v]

/-- Evaluation parameters: the bindings map passed to `Alert.Evaluate`
(a Go `map[string]interface{}`, modelled as an association list). -/
abbrev Params := List (String × Value)

/-- Modelled from the spec: `expression.evaluate(bindings)` — a missing
binding or a comparison against a non-numeric operand is an evaluation
error. -/
def evalExpr : Expr → Params → Except String Bool
  | .gt v c, ps =>
    match ps.lookup v with
    | some (.float q) => .ok (decide (c < q))
    | some _ => .error "invalid operand type"
    | none => .error "no parameter found"

/-- Embedding of the `Alert` struct (skyline.go lines 94-102); the compiled
`expression` field is part of the state. -/
structure Alert where
  formula : String
  threshold : ℕ
  isAlerting : Bool
  count : ℕ
  expression : Expr
deriving DecidableEq, Repr

/-- The variable-substitution loop of `Alert.Evaluate` (skyline.go lines
107-112): each variable with a binding is textually replaced by
`name(shortenedValue)`; `none` models a panic inside `shortenNumber`. -/
def substVars (ps : Params) : List String → String → Option String
  | [], s => some s
  | v :: vs, s =>
    match ps.lookup v with
    | some val =>
      match shortenNumber val with
      | some sh => substVars ps vs (replaceAllStr s v (v ++ "(" ++ sh ++ ")"))
      | none => none
    | none => substVars ps vs s

/-- Whether the formula's expression evaluates without error to `true`
(the "triggered" test on skyline.go line 114). -/
def triggered (e : Expr) (ps : Params) : Bool :=
  match evalExpr e ps with
  | .ok true => true
  | _ => false

/-- Embedding of `Alert.Evaluate` (skyline.go lines 105-122): returns the
display formula and the alert with its consecutive-trigger count incremented
on a triggering evaluation and reset to 0 otherwise; `none` models a panic. -/
def Alert.evaluate (a : Alert) (ps : Params) : Option (Alert × String) :=
  match substVars ps (exprVars a.expression) a.formula with
  | none => none
  | some s =>
    match evalExpr a.expression ps with
    | .ok true => some ({ a with count := a.count + 1 }, s)
    | _ => some ({ a with count := 0 }, s)

/-- The kind of notification message: rendered with the ALERT template or
with the OK (recovery) template. -/
inductive MsgKind where
  | alert
  | ok
deriving DecidableEq, Repr

/-- An emitted notification, abstracted to its template kind and the display
formula passed to the renderer (the rendered text also embeds the current
wall-clock time, which is outside the model). -/
structure Msg where
  kind : MsgKind
  evaluatedFormula : String
deriving DecidableEq, Repr

/-- The per-alert body of the `ShowAlerts` loop (skyline.go lines 238-247):
evaluate the alert, then emit an ALERT message whenever the count has reached
the threshold, an OK message when the alert was alerting and the count fell
below the threshold, and nothing otherwise. -/
def showAlertsStep (a : Alert) (ps : Params) : Option (Alert × Option Msg) :=
  match a.evaluate ps with
  | none => none
  | some (a1, s) =>
    if a1.threshold ≤ a1.count then
      some ({ a1 with isAlerting := true }, some ⟨.alert, s⟩)
    else if a1.isAlerting then
      some ({ a1 with isAlerting := false }, some ⟨.ok, s⟩)
    else
      some (a1, none)

/-- Modelled from the spec: the streaming-statistics capability
(`statsd.RunningStats`, which lives outside the provided sources) —
`add(value)`, `sum()`, `percentile(p)` over the values observed this cycle. -/
structure RunningStats where
  values : List ℚ
deriving DecidableEq, Repr

/-- Modelled from the spec: `add(value)` of the statistics capability. -/
def RunningStats.addValue (rs : RunningStats) (q : ℚ) : RunningStats :=
  ⟨rs.values ++ [q]⟩

/-- Modelled from the spec: `sum()` of the statistics capability. -/
def RunningStats.sum (rs : RunningStats) : ℚ :=
  rs.values.foldl (· + ·) 0

/-- Insertion into a sorted list of rationals. -/
def insertSorted (x : ℚ) : List ℚ → List ℚ
  | [] => [x]
  | y :: ys => if x ≤ y then x :: y :: ys else y :: insertSorted x ys

/-- Insertion sort for rationals. -/
def sortQ (l : List ℚ) : List ℚ := l.foldr insertSorted []

/-- Modelled from the spec: `percentile(p)` of the statistics capability, as
the order statistic at rank `floor(p/100 * count)` clamped to the last
element (0 when no value was observed). -/
def RunningStats.percentile (rs : RunningStats) (p : ℚ) : ℚ :=
  match rs.values with
  | [] => 0
  | vs =>
    let i := min ((p * vs.length / 100).floor.toNat) (vs.length - 1)
    (sortQ vs).getD i 0

/-- Association-list update with Go map semantics: replace the value of an
existing key, or append a fresh key. -/
def assocSet (l : List (String × RunningStats)) (k : String) (v : RunningStats) :
    List (String × RunningStats) :=
  match l with
  | [] => [(k, v)]
  | (k', v') :: rest => if k' = k then (k, v) :: rest else (k', v') :: assocSet rest k v

/-- Embedding of the `Monitor` struct (skyline.go lines 125-135) after
`Init`: the compiled host/uri patterns, the per-cycle field accumulators and
the alert rules. -/
structure Monitor where
  name : String
  regexpHost : Regex
  regexpURI : Regex
  fields : List (String × RunningStats)
  alerts : List Alert
deriving DecidableEq, Repr

/-- Embedding of `Monitor.addField` (skyline.go lines 137-149): coerce the
value to a float and fold it into the accumulator for `key` (created on
first use), or return the coercion error without touching the accumulators. -/
def Monitor.addField (m : Monitor) (key : String) (value : Value) :
    Except String Monitor :=
  match getFloat value with
  | .error e => .error e
  | .ok q =>
    let rs := (m.fields.lookup key).getD ⟨[]⟩
    .ok { m with fields := assocSet m.fields key (rs.addValue q) }

/-- Embedding of `Monitor.ProcessMetric` (skyline.go lines 177-219).  A
metric is its tag map and its field map.  Note the two `m.addField` calls on
lines 208 and 215 discard the returned error, exactly as the source does:
on a coercion failure the monitor is left unchanged and `nil` is returned. -/
def Monitor.processMetric (m : Monitor) (tags : List (String × String))
    (fieldVals : List (String × Value)) : Except String Monitor :=
  match tags.lookup "host" with
  | none => .error "skyline: metric has no 'host' tag"
  | some host =>
    match tags.lookup "uri" with
    | none => .error "skyline: metric has no 'uri' tag"
    | some uri =>
      if !(m.regexpHost.matchString host) || !(m.regexpURI.matchString uri) then
        .ok m
      else
        match tags.lookup "status" with
        | none => .error "skyline: metric has no 'status' tag"
        | some status =>
          match parseIntBase0 status with
          | .error _ => .error "skyline: metric status is not a numeric value"
          | .ok statusInt =>
            if 200 ≤ statusInt ∧ statusInt < 300 then
              match fieldVals.lookup "rt_p95" with
              | none => .error "skyline: metric has no 'rt_p95' field"
              | some requestTime =>
                .ok (match m.addField "rt_p95" requestTime with
                      | .ok m' => m'
                      | .error _ => m)
            else if 400 ≤ statusInt then
              match fieldVals.lookup "rt_count" with
              | none => .error "skyline: metric has no 'rt_count' field"
              | some requestCount =>
                .ok (match m.addField ("status_" ++ status) requestCount with
                      | .ok m' => m'
                      | .error _ => m)
            else
              .ok m

/-- The parameter-building loop of `ShowAlerts` (skyline.go lines 228-235):
`status_`-prefixed accumulators bind to their sum, accumulators containing
`rt_` bind to their 80th percentile, anything else is not bound. -/
def Monitor.buildParams (m : Monitor) : Params :=
  m.fields.foldl
    (fun ps kv =>
      if strStartsWith kv.1 "status_" then ps ++ [(kv.1, Value.float kv.2.sum)]
      else if containsSub kv.1.toList "rt_".toList then
        ps ++ [(kv.1, Value.float (kv.2.percentile 80))]
      else ps)
    []

/-- The alert-evaluation loop of `ShowAlerts` (skyline.go lines 237-247):
run every alert's cycle step, collecting the updated alerts and the emitted
messages; `none` models a panic inside any step. -/
def runAlerts (ps : Params) : List Alert → Option (List Alert × List Msg)
  | [] => some ([], [])
  | a :: rest =>
    match showAlertsStep a ps with
    | none => none
    | some (a', msg) =>
      match runAlerts ps rest with
      | none => none
      | some (as, ms) => some (a' :: as, msg.toList ++ ms)

/-- Embedding of `Monitor.ShowAlerts` (skyline.go lines 226-252): build the
bindings from the accumulators, evaluate every alert, reset the accumulators
unconditionally, and return the emitted messages. -/
def Monitor.showAlerts (m : Monitor) : Option (Monitor × List Msg) :=
  match runAlerts m.buildParams m.alerts with
  | none => none
  | some (as, ms) => some ({ m with fields := [], alerts := as }, ms)

instance : DecidableEq (Except String Monitor) := fun a b =>
  match a, b with
  | .ok x, .ok y => decidable_of_iff (x = y) (by simp)
  | .error x, .error y => decidable_of_iff (x = y) (by simp)
  | .ok _, .error _ => isFalse (by simp)
  | .error _, .ok _ => isFalse (by simp)

instance : DecidableEq (Except String ℤ) := fun a b =>
  match a, b with
  | .ok x, .ok y => decidable_of_iff (x = y) (by simp)
  | .error x, .error y => decidable_of_iff (x = y) (by simp)
  | .ok _, .error _ => isFalse (by simp)
  | .error _, .ok _ => isFalse (by simp)

instance : DecidableEq (Except String ℚ) := fun a b =>
  match a, b with
  | .ok x, .ok y => decidable_of_iff (x = y) (by simp)
  | .error x, .error y => decidable_of_iff (x = y) (by simp)
  | .ok _, .error _ => isFalse (by simp)
  | .error _, .ok _ => isFalse (by simp)

/-- The alert as `Monitor.Init` creates it (skyline.go lines 161-172):
threshold `defaultAlertThreshold = 2`, zero count, not alerting. -/
def initialAlert (formula : String) (e : Expr) : Alert :=
  ⟨formula, 2, false, 0, e⟩

/-- The hysteresis state transition of one evaluation cycle for one alert,
abstracted over whether the formula triggered: the count update of
`Alert.Evaluate` followed by the state/emission branch of `ShowAlerts`. -/
def hystStep (a : Alert) (trig : Bool) : Alert × Option MsgKind :=
  let a1 := { a with count := if trig then a.count + 1 else 0 }
  if a1.threshold ≤ a1.count then ({ a1 with isAlerting := true }, some .alert)
  else if a1.isAlerting then ({ a1 with isAlerting := false }, some .ok)
  else (a1, none)

/-- Iterated hysteresis transition over a trace of per-cycle trigger
outcomes. -/
def runHyst (a : Alert) (ts : List Bool) : Alert :=
  ts.foldl (fun s t => (hystStep s t).1) a

/-- The number of consecutive triggering cycles at the end of a trace
(since the last non-triggering cycle, or since the start). -/
def streak (ts : List Bool) : ℕ :=
  (ts.reverse.takeWhile (fun b => b)).length

/-! ### Helper lemmas -/

theorem hystStep_count (a : Alert) (t : Bool) :
    ((hystStep a t).1).count = if t then a.count + 1 else 0 := by
  unfold hystStep
  dsimp only
  split_ifs <;> rfl

theorem hystStep_threshold (a : Alert) (t : Bool) :
    ((hystStep a t).1).threshold = a.threshold := by
  unfold hystStep
  dsimp only
  split_ifs <;> rfl

theorem hystStep_isAlerting (a : Alert) (t : Bool) :
    ((hystStep a t).1).isAlerting =
      decide (a.threshold ≤ (if t then a.count + 1 else 0)) := by
  unfold hystStep
  dsimp only
  split_ifs <;> simp_all

theorem hystStep_msg (a : Alert) (t : Bool) :
    (hystStep a t).2 =
      (if a.threshold ≤ (if t then a.count + 1 else 0) then some MsgKind.alert
       else if a.isAlerting then some MsgKind.ok else none) := by
  unfold hystStep
  dsimp only
  split_ifs <;> simp_all

/-- `Alert.Evaluate` updates the consecutive-trigger counter to
`count + 1` on a triggering evaluation and to `0` otherwise. -/
theorem evaluate_count {a : Alert} {ps : Params} {a1 : Alert} {s : String}
    (h : a.evaluate ps = some (a1, s)) :
    a1 = { a with count := if triggered a.expression ps then a.count + 1 else 0 } := by
  unfold Alert.evaluate at h
  cases hsub : substVars ps (exprVars a.expression) a.formula with
  | none => rw [hsub] at h; cases h
  | some s' =>
    rw [hsub] at h
    unfold triggered
    cases hev : evalExpr a.expression ps with
    | error e =>
      rw [hev] at h
      simp only [Option.some.injEq, Prod.mk.injEq] at h
      simp [← h.1]
    | ok b =>
      rw [hev] at h
      cases b <;>
        · simp only [Option.some.injEq, Prod.mk.injEq] at h
          simp [← h.1]

/-- The per-alert `ShowAlerts` body refines the abstract hysteresis step:
whenever it returns (does not panic), the new alert state is `hystStep` of
the old alert at the actual trigger outcome, and the emitted message kind is
the `hystStep` emission. -/
theorem showAlertsStep_hyst {a : Alert} {ps : Params} {a' : Alert}
    {msg : Option Msg} (h : showAlertsStep a ps = some (a', msg)) :
    a' = (hystStep a (triggered a.expression ps)).1 ∧
      msg.map Msg.kind = (hystStep a (triggered a.expression ps)).2 := by
  unfold showAlertsStep at h
  cases hev : a.evaluate ps with
  | none => rw [hev] at h; cases h
  | some r =>
    obtain ⟨a1, s⟩ := r
    rw [hev] at h
    have ha1 := evaluate_count hev
    subst ha1
    unfold hystStep
    dsimp only at h ⊢
    split_ifs at h ⊢ <;>
      · simp only [Option.some.injEq, Prod.mk.injEq] at h
        simp [← h.1, ← h.2]

theorem runHyst_nil (a : Alert) : runHyst a [] = a := rfl

theorem runHyst_append_singleton (a : Alert) (ts : List Bool) (b : Bool) :
    runHyst a (ts ++ [b]) = (hystStep (runHyst a ts) b).1 := by
  simp [runHyst, List.foldl_append]

theorem streak_nil : streak [] = 0 := rfl

theorem streak_append_singleton (ts : List Bool) (b : Bool) :
    streak (ts ++ [b]) = if b then streak ts + 1 else 0 := by
  cases b <;> simp [streak, List.reverse_append]

theorem runHyst_threshold (ts : List Bool) (a : Alert) :
    (runHyst a ts).threshold = a.threshold := by
  induction ts generalizing a with
  | nil => rfl
  | cons t ts ih =>
    show (runHyst ((hystStep a t).1) ts).threshold = a.threshold
    rw [ih, hystStep_threshold]

/-- From a zero count, the consecutive-trigger counter equals the length of
the trailing run of triggering cycles. -/
theorem runHyst_count (ts : List Bool) (a : Alert) (h : a.count = 0) :
    (runHyst a ts).count = streak ts := by
  induction ts using List.reverseRecOn with
  | nil => simpa [runHyst_nil, streak_nil] using h
  | append_singleton ts b ih =>
    rw [runHyst_append_singleton, hystStep_count, streak_append_singleton, ih]

/-! ### C1 -/

/-- C1 counterexample: an alert rule already in the ALERTING state
(`isAlerting = true`) whose consecutive trigger count stays at or above its
threshold (count 2 → 3, threshold 2) does NOT emit nothing on that cycle:
`ShowAlerts` emits a (repeat) ALERT message, contradicting the claim that a
steady ALERTING cycle emits nothing. -/
theorem c1_steady_alerting_counterexample :
    showAlertsStep ⟨"status_504 > 5", 2, true, 2, .gt "status_504" 5⟩
        [("status_504", Value.float 6)] =
      some (⟨"status_504 > 5", 2, true, 3, .gt "status_504" 5⟩,
        some ⟨MsgKind.alert, "status_504(6) > 5"⟩) := by
  decide

/-- C1 amended: a rule in the ALERTING state whose consecutive trigger count
is still at or above its threshold remains ALERTING but emits an ALERT
message on every such cycle (the notification is level-triggered while the
count holds at or above the threshold, not at most once per episode). -/
theorem c1_steady_alerting_emits_alert (a : Alert) (ps : Params) (a' : Alert)
    (msg : Option Msg) (h : showAlertsStep a ps = some (a', msg))
    (_halert : a.isAlerting = true) (hc : a.threshold ≤ a'.count) :
    a'.isAlerting = true ∧ msg.map Msg.kind = some MsgKind.alert := by
  obtain ⟨ha', hmsg⟩ := showAlertsStep_hyst h
  subst ha'
  rw [hystStep_count] at hc
  constructor
  · rw [hystStep_isAlerting]
    simpa using hc
  · rw [hmsg, hystStep_msg, if_pos hc]

theorem c1_steady_alerting_emits_alert_witness :
    (⟨"status_504 > 5", 2, true, 3, Expr.gt "status_504" 5⟩ : Alert).isAlerting = true ∧
      (some ⟨MsgKind.alert, "status_504(6) > 5"⟩ : Option Msg).map Msg.kind =
        some MsgKind.alert :=
  c1_steady_alerting_emits_alert
    ⟨"status_504 > 5", 2, true, 2, .gt "status_504" 5⟩
    [("status_504", Value.float 6)]
    ⟨"status_504 > 5", 2, true, 3, .gt "status_504" 5⟩
    (some ⟨MsgKind.alert, "status_504(6) > 5"⟩)
    (by decide) rfl (by decide)

/-! ### C2 -/

/-- C2: starting from a zero count, at a cycle reached with the rule in the
OK state the evaluation cycle emits an ALERT and flips the state to ALERTING
iff the triggering condition held on at least `threshold` consecutive cycles
since the last non-triggering cycle (or since start); the per-alert
`ShowAlerts` body refines the abstract hysteresis step (so the trace
statement is about the code's transition); and with the default threshold 2,
a condition that holds every cycle emits nothing on the 1st cycle and fires
the ALERT on the 2nd. -/
theorem c2_transition_iff_consecutive (a : Alert) (ts : List Bool) (b : Bool)
    (h0 : a.count = 0) (hOK : (runHyst a ts).isAlerting = false) :
    (((hystStep (runHyst a ts) b).2 = some MsgKind.alert ∧
        ((hystStep (runHyst a ts) b).1).isAlerting = true) ↔
      a.threshold ≤ streak (ts ++ [b])) ∧
    (∀ (a' : Alert) (ps : Params) (x : Alert) (msg : Option Msg),
        showAlertsStep a' ps = some (x, msg) →
          x = (hystStep a' (triggered a'.expression ps)).1 ∧
            msg.map Msg.kind = (hystStep a' (triggered a'.expression ps)).2) ∧
    showAlertsStep (initialAlert "status_504 > 5" (.gt "status_504" 5))
        [("status_504", Value.float 6)] =
      some (⟨"status_504 > 5", 2, false, 1, .gt "status_504" 5⟩, none) ∧
    showAlertsStep ⟨"status_504 > 5", 2, false, 1, .gt "status_504" 5⟩
        [("status_504", Value.float 6)] =
      some (⟨"status_504 > 5", 2, true, 2, .gt "status_504" 5⟩,
        some ⟨MsgKind.alert, "status_504(6) > 5"⟩) := by
  refine ⟨?_, fun a' ps x msg h => showAlertsStep_hyst h, by decide, by decide⟩
  have hth := runHyst_threshold ts a
  have hcnt := runHyst_count ts a h0
  rw [hystStep_msg, hystStep_isAlerting, streak_append_singleton, hth, hcnt, hOK]
  by_cases hc : a.threshold ≤ (if b then streak ts + 1 else 0) <;> simp [hc]

theorem c2_transition_iff_consecutive_witness :
    ((hystStep (runHyst (initialAlert "status_504 > 5" (.gt "status_504" 5)) []) true).2 =
          some MsgKind.alert ∧
        ((hystStep (runHyst (initialAlert "status_504 > 5" (.gt "status_504" 5)) []) true).1).isAlerting =
          true) ↔
      (initialAlert "status_504 > 5" (.gt "status_504" 5)).threshold ≤
        streak ([] ++ [true]) :=
  (c2_transition_iff_consecutive (initialAlert "status_504 > 5" (.gt "status_504" 5))
    [] true rfl (by decide)).1

/-! ### C3 -/

/-- C3: on a cycle where the consecutive trigger count ends up below the
threshold, a rule in the ALERTING state transitions to OK and emits exactly
one OK (recovery) message — regardless of the counter's value — while a rule
already in the OK state stays OK and emits nothing (so the recovery message
is never repeated on subsequent OK cycles). -/
theorem c3_recovery_emits_ok_once (a : Alert) (ps : Params) (a' : Alert)
    (msg : Option Msg) (h : showAlertsStep a ps = some (a', msg))
    (hc : a'.count < a.threshold) :
    (a.isAlerting = true → a'.isAlerting = false ∧ msg.map Msg.kind = some MsgKind.ok) ∧
    (a.isAlerting = false → a'.isAlerting = false ∧ msg = none) := by
  obtain ⟨ha', hmsg⟩ := showAlertsStep_hyst h
  subst ha'
  rw [hystStep_count] at hc
  have hnc := Nat.not_le.mpr hc
  constructor <;> intro hal
  · refine ⟨by rw [hystStep_isAlerting]; simpa using hnc, ?_⟩
    rw [hmsg, hystStep_msg, if_neg hnc, hal, if_pos rfl]
  · refine ⟨by rw [hystStep_isAlerting]; simpa using hnc, ?_⟩
    rw [hystStep_msg, if_neg hnc, hal] at hmsg
    simpa using hmsg

theorem c3_recovery_emits_ok_once_witness :
    (⟨"status_504 > 5", 2, false, 0, Expr.gt "status_504" 5⟩ : Alert).isAlerting = false ∧
      (some ⟨MsgKind.ok, "status_504 > 5"⟩ : Option Msg).map Msg.kind = some MsgKind.ok :=
  (c3_recovery_emits_ok_once
    ⟨"status_504 > 5", 2, true, 5, .gt "status_504" 5⟩ []
    ⟨"status_504 > 5", 2, false, 0, .gt "status_504" 5⟩
    (some ⟨MsgKind.ok, "status_504 > 5"⟩)
    (by decide) (by decide)).1 rfl


/-! ### C4 -/

/-- C4 counterexample: matching is NOT full-string.  With host pattern `a`
and path pattern `b`, a record whose tags `host = "xa"` and `uri = "yb"`
only contain the patterns as proper substrings (whole-string `rmatch` is
false for both) is nevertheless processed and folded into the `status_504`
accumulator, contradicting the claim that such a record is skipped. -/
theorem c4_substring_match_counterexample :
    Monitor.processMetric ⟨"www", .chr 'a', .chr 'b', [], []⟩
        [("host", "xa"), ("uri", "yb"), ("status", "504")] [("rt_count", .int 3)] =
      .ok ⟨"www", .chr 'a', .chr 'b', [("status_504", ⟨[3]⟩)], []⟩ ∧
    rmatch (.chr 'a') "xa".toList = false ∧
    rmatch (.chr 'b') "yb".toList = false := by
  decide

/-- C4 amended: matching is unanchored (contains-a-match) regular-expression
matching, as Go's `regexp.MatchString` is documented to be: a record with
`host` and `uri` tags present contributes nothing to any accumulator and
returns no error unless the host pattern matches somewhere inside the host
tag and the path pattern matches somewhere inside the uri tag. -/
theorem c4_unmatched_record_skipped (m : Monitor) (tags : List (String × String))
    (fieldVals : List (String × Value)) (host uri : String)
    (hh : tags.lookup "host" = some host) (hu : tags.lookup "uri" = some uri)
    (hmm : m.regexpHost.matchString host = false ∨
      m.regexpURI.matchString uri = false) :
    m.processMetric tags fieldVals = .ok m := by
  unfold Monitor.processMetric
  rw [hh]
  dsimp only
  rw [hu]
  dsimp only
  rcases hmm with hm | hm <;> rw [hm] <;> rw [if_pos (by simp)]

theorem c4_unmatched_record_skipped_witness :
    Monitor.processMetric ⟨"www", .chr 'a', .chr 'b', [], []⟩
        [("host", "zz"), ("uri", "yb")] [("rt_count", .int 3)] =
      .ok ⟨"www", .chr 'a', .chr 'b', [], []⟩ :=
  c4_unmatched_record_skipped ⟨"www", .chr 'a', .chr 'b', [], []⟩
    [("host", "zz"), ("uri", "yb")] [("rt_count", .int 3)] "zz" "yb"
    rfl rfl (Or.inl (by decide))

/-! ### C5 -/

/-- C5: for a matching record with a parseable status, the classification is
by integer status: status in [200, 300) folds the `rt_p95` field value into
the accumulator keyed `rt_p95`; status ≥ 400 folds the `rt_count` field's
value (the value itself, not a unit count) into the accumulator keyed
`status_<code>` where `<code>` is the original status text; status in
[300, 400) folds into no accumulator at all (monitor unchanged). -/
theorem c5_status_classification (m : Monitor) (tags : List (String × String))
    (fieldVals : List (String × Value)) (host uri status : String) (n : ℤ)
    (hh : tags.lookup "host" = some host) (hu : tags.lookup "uri" = some uri)
    (hmh : m.regexpHost.matchString host = true)
    (hmu : m.regexpURI.matchString uri = true)
    (hs : tags.lookup "status" = some status)
    (hp : parseIntBase0 status = .ok n) :
    (∀ rtv q, 200 ≤ n → n < 300 → fieldVals.lookup "rt_p95" = some rtv →
        getFloat rtv = .ok q →
        m.processMetric tags fieldVals =
          .ok { m with fields := (assocSet m.fields "rt_p95" (((m.fields.lookup "rt_p95").getD ⟨[]⟩).addValue q)) }) ∧
    (∀ rtv q, 400 ≤ n → fieldVals.lookup "rt_count" = some rtv →
        getFloat rtv = .ok q →
        m.processMetric tags fieldVals =
          .ok { m with fields := (assocSet m.fields ("status_" ++ status) (((m.fields.lookup ("status_" ++ status)).getD ⟨[]⟩).addValue q)) }) ∧
    (300 ≤ n → n < 400 → m.processMetric tags fieldVals = .ok m) := by
  unfold Monitor.processMetric
  rw [hh]
  dsimp only
  rw [hu]
  dsimp only
  rw [hmh, hmu, if_neg (by decide), hs]
  dsimp only
  rw [hp]
  dsimp only
  refine ⟨?_, ?_, ?_⟩
  · intro rtv q h1 h2 hlk hg
    rw [if_pos ⟨h1, h2⟩, hlk]
    dsimp only
    simp [Monitor.addField, hg]
  · intro rtv q h4 hlk hg
    rw [if_neg (by omega), if_pos (by omega), hlk]
    dsimp only
    simp [Monitor.addField, hg]
  · intro h3 h4
    rw [if_neg (by omega), if_neg (by omega)]

theorem c5_status_classification_witness :
    Monitor.processMetric ⟨"www", .any, .any, [], []⟩
        [("host", "a"), ("uri", "b"), ("status", "504")] [("rt_count", .int 3)] =
      .ok ⟨"www", .any, .any, [("status_504", ⟨[3]⟩)], []⟩ :=
  ((c5_status_classification ⟨"www", .any, .any, [], []⟩
    [("host", "a"), ("uri", "b"), ("status", "504")] [("rt_count", .int 3)]
    "a" "b" "504" 504 rfl rfl (by decide) (by decide) rfl (by decide)).2.1
    (.int 3) 3 (by decide) rfl (by decide)).trans (by decide)

/-! ### C6 -/

/-- C6 counterexample: a matching 2xx record whose required `rt_p95` field
holds a non-numeric value (a boolean) does NOT surface a non-numeric-value
error to the caller: `ProcessMetric` discards the error returned by
`addField` (skyline.go line 208 ignores the return value) and returns `nil`,
leaving the monitor unchanged.  The coercion itself does fail, as the second
conjunct shows. -/
theorem c6_dropped_error_counterexample :
    Monitor.processMetric ⟨"www", .chr 'a', .chr 'a', [], []⟩
        [("host", "a"), ("uri", "a"), ("status", "204")] [("rt_p95", .bool true)] =
      .ok ⟨"www", .chr 'a', .chr 'a', [], []⟩ ∧
    getFloat (.bool true) =
      .error "Non-numeric type could not be converted to float" := by
  decide

/-- C6 amended: for a matching record whose required field is present but
non-numeric, nothing is folded into any accumulator, but the coercion error
is silently discarded rather than surfaced: `processRecord` returns success
with the monitor unchanged. -/
theorem c6_non_numeric_value_silently_dropped (m : Monitor)
    (tags : List (String × String)) (fieldVals : List (String × Value))
    (host uri status : String) (n : ℤ) (rtv : Value) (e : String)
    (hh : tags.lookup "host" = some host) (hu : tags.lookup "uri" = some uri)
    (hmh : m.regexpHost.matchString host = true)
    (hmu : m.regexpURI.matchString uri = true)
    (hs : tags.lookup "status" = some status)
    (hp : parseIntBase0 status = .ok n) :
    (200 ≤ n → n < 300 → fieldVals.lookup "rt_p95" = some rtv →
        getFloat rtv = .error e → m.processMetric tags fieldVals = .ok m) ∧
    (400 ≤ n → fieldVals.lookup "rt_count" = some rtv →
        getFloat rtv = .error e → m.processMetric tags fieldVals = .ok m) := by
  unfold Monitor.processMetric
  rw [hh]
  dsimp only
  rw [hu]
  dsimp only
  rw [hmh, hmu, if_neg (by decide), hs]
  dsimp only
  rw [hp]
  dsimp only
  constructor
  · intro h1 h2 hlk hg
    rw [if_pos ⟨h1, h2⟩, hlk]
    dsimp only
    simp [Monitor.addField, hg]
  · intro h4 hlk hg
    rw [if_neg (by omega), if_pos (by omega), hlk]
    dsimp only
    simp [Monitor.addField, hg]

theorem c6_non_numeric_value_silently_dropped_witness :
    Monitor.processMetric ⟨"www", .chr 'a', .chr 'a', [], []⟩
        [("host", "a"), ("uri", "a"), ("status", "204")] [("rt_p95", .str "oops")] =
      .ok ⟨"www", .chr 'a', .chr 'a', [], []⟩ :=
  (c6_non_numeric_value_silently_dropped ⟨"www", .chr 'a', .chr 'a', [], []⟩
    [("host", "a"), ("uri", "a"), ("status", "204")] [("rt_p95", .str "oops")]
    "a" "a" "204" 204 (.str "oops") "invalid syntax"
    rfl rfl (by decide) (by decide) rfl (by decide)).1
    (by decide) (by decide) rfl (by decide)

/-! ### C7 -/

/-- C7 counterexample: a record with no `status` tag whose present `host`
and `uri` tags do not match the monitor's patterns returns NO missing-tag
error — it is silently skipped (`.ok`), because the source only reads the
`status` tag after the match guard.  This contradicts the claim that a
missing `status` tag yields a missing-tag error even for records whose
present tags would not match. -/
theorem c7_missing_status_unmatched_counterexample :
    Monitor.processMetric ⟨"www", .chr 'a', .chr 'a', [], []⟩
        [("host", "z"), ("uri", "z")] [("rt_count", .int 3)] =
      .ok ⟨"www", .chr 'a', .chr 'a', [], []⟩ ∧
    List.lookup "status" [("host", "z"), ("uri", "z")] = none := by
  decide

/-- C7 amended: a missing `host` or `uri` tag always yields the
corresponding missing-tag error; a missing `status` tag yields its
missing-tag error only when the present `host` and `uri` tags match the
monitor's patterns — when they do not match, the record is silently skipped
with no error even though `status` is absent. -/
theorem c7_missing_tag_errors (m : Monitor) (tags : List (String × String))
    (fieldVals : List (String × Value)) :
    (tags.lookup "host" = none →
        m.processMetric tags fieldVals = .error "skyline: metric has no 'host' tag") ∧
    (∀ host, tags.lookup "host" = some host → tags.lookup "uri" = none →
        m.processMetric tags fieldVals = .error "skyline: metric has no 'uri' tag") ∧
    (∀ host uri, tags.lookup "host" = some host → tags.lookup "uri" = some uri →
        m.regexpHost.matchString host = true → m.regexpURI.matchString uri = true →
        tags.lookup "status" = none →
        m.processMetric tags fieldVals = .error "skyline: metric has no 'status' tag") ∧
    (∀ host uri, tags.lookup "host" = some host → tags.lookup "uri" = some uri →
        (m.regexpHost.matchString host = false ∨
          m.regexpURI.matchString uri = false) →
        m.processMetric tags fieldVals = .ok m) := by
  refine ⟨?_, ?_, ?_, ?_⟩
  · intro hh
    unfold Monitor.processMetric
    rw [hh]
  · intro host hh hu
    unfold Monitor.processMetric
    rw [hh]
    dsimp only
    rw [hu]
  · intro host uri hh hu hmh hmu hs
    unfold Monitor.processMetric
    rw [hh]
    dsimp only
    rw [hu]
    dsimp only
    rw [hmh, hmu, if_neg (by decide), hs]
  · intro host uri hh hu hmm
    unfold Monitor.processMetric
    rw [hh]
    dsimp only
    rw [hu]
    dsimp only
    rcases hmm with hm | hm <;> rw [hm] <;> rw [if_pos (by simp)]

theorem c7_missing_tag_errors_witness :
    Monitor.processMetric ⟨"www", .chr 'a', .chr 'a', [], []⟩ [] [] =
      .error "skyline: metric has no 'host' tag" :=
  (c7_missing_tag_errors ⟨"www", .chr 'a', .chr 'a', [], []⟩ [] []).1 rfl

/-! ### C8 -/

theorem substVars_nil_params (vs : List String) (s : String) :
    substVars [] vs s = some s := by
  induction vs generalizing s with
  | nil => rfl
  | cons v vs ih => simpa [substVars] using ih s

/-- With empty bindings every variable lookup fails, so `Alert.Evaluate`
leaves the formula text untouched and resets the count (the evaluation
errors, which counts as "not triggered"). -/
theorem evaluate_nil_params (a : Alert) :
    a.evaluate [] = some ({ a with count := 0 }, a.formula) := by
  obtain ⟨f, th, al, cnt, e⟩ := a
  cases e with
  | gt v c => simp [Alert.evaluate, substVars_nil_params, evalExpr, exprVars]

theorem showAlertsStep_nil_params (a : Alert) (hth : 1 ≤ a.threshold) :
    showAlertsStep a [] =
      some ({ a with count := 0, isAlerting := false },
        if a.isAlerting then some ⟨MsgKind.ok, a.formula⟩ else none) := by
  unfold showAlertsStep
  rw [evaluate_nil_params]
  dsimp only
  rw [if_neg (by omega)]
  obtain ⟨f, th, al, cnt, e⟩ := a
  cases al <;> simp

theorem runAlerts_nil_params (as : List Alert) (h : ∀ a ∈ as, 1 ≤ a.threshold) :
    runAlerts [] as =
      some (as.map (fun a => { a with count := 0, isAlerting := false }),
        as.filterMap
          (fun a => if a.isAlerting then some ⟨MsgKind.ok, a.formula⟩ else none)) := by
  induction as with
  | nil => rfl
  | cons a as ih =>
    have ha : 1 ≤ a.threshold := h a (List.mem_cons_self a as)
    have hrest := ih (fun x hx => h x (List.mem_cons_of_mem a hx))
    unfold runAlerts
    rw [showAlertsStep_nil_params a ha, hrest]
    cases hal : a.isAlerting <;> simp [List.filterMap_cons, hal]

/-- C8 counterexample: a second `evaluateAndReset` call straight after a
first one is NOT always silent.  Concretely: a monitor whose single rule
(count 1, threshold 2) triggers on the first call (sum 6 > 5) emits an ALERT
and becomes ALERTING; the second call, with no intervening `processRecord`,
finds empty bindings, treats the evaluation error as not-triggered, and
emits an OK recovery message — one message, not zero. -/
theorem c8_second_call_counterexample :
    Monitor.showAlerts ⟨"www", .any, .any, [("status_504", ⟨[6]⟩)],
        [⟨"status_504 > 5", 2, false, 1, .gt "status_504" 5⟩]⟩ =
      some (⟨"www", .any, .any, [],
          [⟨"status_504 > 5", 2, true, 2, .gt "status_504" 5⟩]⟩,
        [⟨MsgKind.alert, "status_504(6) > 5"⟩]) ∧
    Monitor.showAlerts ⟨"www", .any, .any, [],
        [⟨"status_504 > 5", 2, true, 2, .gt "status_504" 5⟩]⟩ =
      some (⟨"www", .any, .any, [],
          [⟨"status_504 > 5", 2, false, 0, .gt "status_504" 5⟩]⟩,
        [⟨MsgKind.ok, "status_504 > 5"⟩]) := by
  decide

/-- C8 amended: after any `evaluateAndReset` call the accumulators are
empty, so a second call with no intervening `processRecord` emits no ALERT
message: it emits exactly one OK recovery message per rule left ALERTING by
the first call and nothing for the others, and a third call emits nothing at
all (all rules are then OK with zero count). -/
theorem c8_second_call_only_recoveries (m m1 : Monitor) (msgs1 : List Msg)
    (h : m.showAlerts = some (m1, msgs1))
    (hth : ∀ a ∈ m1.alerts, 1 ≤ a.threshold) :
    m1.fields = [] ∧
    m1.showAlerts =
      some ({ m1 with alerts := (m1.alerts.map (fun a => { a with count := 0, isAlerting := false })) },
        m1.alerts.filterMap
          (fun a => if a.isAlerting then some ⟨MsgKind.ok, a.formula⟩ else none)) ∧
    (∀ msg ∈ m1.alerts.filterMap
        (fun a => if a.isAlerting then some (⟨MsgKind.ok, a.formula⟩ : Msg) else none),
      msg.kind = MsgKind.ok) ∧
    Monitor.showAlerts
        { m1 with alerts := (m1.alerts.map (fun a => { a with count := 0, isAlerting := false })) } =
      some ({ m1 with alerts := (m1.alerts.map (fun a => { a with count := 0, isAlerting := false })) },
        []) := by
  have hf : m1.fields = [] := by
    unfold Monitor.showAlerts at h
    cases hr : runAlerts m.buildParams m.alerts with
    | none => rw [hr] at h; cases h
    | some r =>
      rw [hr] at h
      simp only [Option.some.injEq, Prod.mk.injEq] at h
      rw [← h.1]
  have hbp : m1.buildParams = [] := by
    unfold Monitor.buildParams
    rw [hf]
    rfl
  refine ⟨hf, ?_, ?_, ?_⟩
  · unfold Monitor.showAlerts
    rw [hbp, runAlerts_nil_params m1.alerts hth, hf]
  · intro msg hmem
    obtain ⟨a, _, hfa⟩ := List.mem_filterMap.mp hmem
    by_cases hal : a.isAlerting <;> simp [hal] at hfa
    rw [← hfa]
  · unfold Monitor.showAlerts
    have hth2 : ∀ a ∈ m1.alerts.map (fun a => { a with count := 0, isAlerting := false }),
        1 ≤ a.threshold := by
      intro a ha
      obtain ⟨b, hb, rfl⟩ := List.mem_map.mp ha
      exact hth b hb
    have hbp2 : Monitor.buildParams
        { m1 with alerts := (m1.alerts.map (fun a => { a with count := 0, isAlerting := false })) } = [] := by
      unfold Monitor.buildParams
      dsimp only
      rw [hf]
      rfl
    rw [hbp2, runAlerts_nil_params _ hth2]
    dsimp only
    rw [List.map_map, List.filterMap_map]
    have hmap : m1.alerts.map
          ((fun (a : Alert) => { a with count := 0, isAlerting := false }) ∘
            (fun (a : Alert) => { a with count := 0, isAlerting := false })) =
        m1.alerts.map (fun (a : Alert) => { a with count := 0, isAlerting := false }) := rfl
    have hfm : m1.alerts.filterMap
          ((fun (a : Alert) =>
              if a.isAlerting then some (⟨MsgKind.ok, a.formula⟩ : Msg) else none) ∘
            (fun (a : Alert) => { a with count := 0, isAlerting := false })) = [] := by
      refine List.filterMap_eq_nil_iff.mpr ?_
      intro a ha
      rfl
    rw [hmap, hfm, hf]

theorem c8_second_call_only_recoveries_witness :
    Monitor.showAlerts ⟨"www", .any, .any, [],
        [⟨"status_504 > 5", 2, true, 2, .gt "status_504" 5⟩]⟩ =
      some ({ (⟨"www", .any, .any, [],
            [⟨"status_504 > 5", 2, true, 2, .gt "status_504" 5⟩]⟩ : Monitor) with
          alerts := ((⟨"www", .any, .any, [],
            [⟨"status_504 > 5", 2, true, 2, .gt "status_504" 5⟩]⟩ : Monitor).alerts.map
              (fun a => { a with count := 0, isAlerting := false })) },
        (⟨"www", .any, .any, [],
          [⟨"status_504 > 5", 2, true, 2, .gt "status_504" 5⟩]⟩ : Monitor).alerts.filterMap
            (fun a => if a.isAlerting then some ⟨MsgKind.ok, a.formula⟩ else none)) :=
  (c8_second_call_only_recoveries
    ⟨"www", .any, .any, [("status_504", ⟨[6]⟩)],
      [⟨"status_504 > 5", 2, false, 1, .gt "status_504" 5⟩]⟩
    ⟨"www", .any, .any, [], [⟨"status_504 > 5", 2, true, 2, .gt "status_504" 5⟩]⟩
    [⟨MsgKind.alert, "status_504(6) > 5"⟩]
    (by decide)
    (by intro a ha; rw [List.mem_singleton] at ha; subst ha; decide)).2.1


/-! ### C9 -/

/-- C9: `Alert.Evaluate` returns the original formula text with each
variable for which a binding exists textually replaced by
`name(shortenedValue)` (for the comparison fragment, the single variable is
replaced when bound and the formula is returned unchanged when not);
concretely `status_504 > 5` with binding 6 becomes `status_504(6) > 5`;
value shortening renders 950 as `950` and 1500 as `1.5k`, every value below
1000 renders bare (exactly `ratToString`, which appends no suffix), and the
suffixes k, m, g, t, p, e appear at the successive powers of 1000. -/
theorem c9_display_formula_and_shortening :
    (∀ (a : Alert) (ps : Params) (v : String) (c : ℚ) (val : Value) (sh : String),
        a.expression = .gt v c → ps.lookup v = some val → shortenNumber val = some sh →
        a.evaluate ps =
          some ({ a with count := (if triggered a.expression ps then a.count + 1 else 0) },
            replaceAllStr a.formula v (v ++ "(" ++ sh ++ ")"))) ∧
    (∀ (a : Alert) (ps : Params) (v : String) (c : ℚ),
        a.expression = .gt v c → ps.lookup v = none →
        a.evaluate ps = some ({ a with count := 0 }, a.formula)) ∧
    (initialAlert "status_504 > 5" (.gt "status_504" 5)).evaluate
        [("status_504", Value.float 6)] =
      some (⟨"status_504 > 5", 2, false, 1, .gt "status_504" 5⟩, "status_504(6) > 5") ∧
    shortenNumber (Value.float 950) = some "950" ∧
    shortenNumber (Value.float 1500) = some "1.5k" ∧
    (∀ q : ℚ, q < 1000 → shortenNumber (Value.float q) = some (ratToString q)) ∧
    (shortenNumber (Value.float (1000 ^ 1)) = some "1.0k" ∧
      shortenNumber (Value.float (1000 ^ 2)) = some "1.0m" ∧
      shortenNumber (Value.float (1000 ^ 3)) = some "1.0g" ∧
      shortenNumber (Value.float (1000 ^ 4)) = some "1.0t" ∧
      shortenNumber (Value.float (1000 ^ 5)) = some "1.0p" ∧
      shortenNumber (Value.float (1000 ^ 6)) = some "1.0e") := by
  refine ⟨?_, ?_, by decide, by decide, by decide, ?_, by decide⟩
  · intro a ps v c val sh he hlk hsh
    unfold Alert.evaluate triggered
    rw [he]
    simp only [exprVars, substVars, hlk, hsh]
    cases hev : evalExpr (.gt v c) ps with
    | error e => simp
    | ok b => cases b <;> simp
  · intro a ps v c he hlk
    unfold Alert.evaluate
    rw [he]
    simp only [exprVars, substVars, hlk, evalExpr]
  · intro q hq
    unfold shortenNumber
    dsimp only
    rw [if_pos hq]

theorem c9_display_formula_and_shortening_witness :
    (initialAlert "status_504 > 5" (.gt "status_504" 5)).evaluate
        [("status_504", Value.float 6)] =
      some ({ initialAlert "status_504 > 5" (.gt "status_504" 5) with
          count := (if triggered (initialAlert "status_504 > 5"
              (.gt "status_504" 5)).expression [("status_504", Value.float 6)] then
            (initialAlert "status_504 > 5" (.gt "status_504" 5)).count + 1 else 0) },
        replaceAllStr (initialAlert "status_504 > 5" (.gt "status_504" 5)).formula
          "status_504" ("status_504" ++ "(" ++ "6" ++ ")")) :=
  c9_display_formula_and_shortening.1
    (initialAlert "status_504 > 5" (.gt "status_504" 5))
    [("status_504", Value.float 6)] "status_504" 5 (Value.float 6) "6"
    rfl rfl (by decide)

/-! ### C10 -/

/-- Whether a binding value is a float64 strictly below `1000 ^ 7` (the
range in which the suffix table lookup of `shortenNumber` stays in
bounds). -/
def boundedFloat : Value → Bool
  | .float q => decide (q < 1000 ^ 7)
  | _ => false

theorem log1000Aux_le (f : ℕ) : ∀ n k, n < 1000 ^ (k + 1) → log1000Aux f n ≤ k := by
  induction f with
  | zero => intro n k _; exact Nat.zero_le k
  | succ f ih =>
    intro n k h
    unfold log1000Aux
    split
    · exact Nat.zero_le k
    · next hn =>
      cases k with
      | zero =>
        rw [pow_one] at h
        omega
      | succ k2 =>
        have hdiv : n / 1000 < 1000 ^ (k2 + 1) := by
          rw [Nat.div_lt_iff_lt_mul (by norm_num)]
          calc n < 1000 ^ (k2 + 2) := h
          _ = 1000 ^ (k2 + 1) * 1000 := by ring
        exact Nat.succ_le_succ (ih (n / 1000) k2 hdiv)

/-- `shortenNumber` returns a string (no panic) on every float64 strictly
below `1000 ^ 7`. -/
theorem shortenNumber_isSome_of_lt {q : ℚ} (h : q < 1000 ^ 7) :
    (shortenNumber (Value.float q)).isSome = true := by
  unfold shortenNumber
  dsimp only
  by_cases hq : q < 1000
  · simp [hq]
  · have hz : Rat.floor q < (1000 : ℤ) ^ 7 := by
      by_contra hcon
      push_neg at hcon
      have hle : ((1000 : ℤ) ^ 7 : ℚ) ≤ q := Rat.le_floor.mp hcon
      push_cast at hle
      linarith
    have hn1 : ((1000 : ℤ) ^ 7) = 1000000000000000000000 := by norm_num
    have hn2 : ((1000 : ℕ) ^ 7) = 1000000000000000000000 := by norm_num
    have hfl : q.floor.toNat < 1000 ^ 7 := by omega
    have hlog := log1000Aux_le q.floor.toNat q.floor.toNat 6 hfl
    rw [if_neg hq]
    rw [if_pos (by omega)]
    rfl

theorem mem_of_lookup : ∀ {ps : Params} {v : String} {val : Value},
    ps.lookup v = some val → (v, val) ∈ ps := by
  intro ps
  induction ps with
  | nil => intro v val h; cases h
  | cons kv rest ih =>
    intro v val h
    obtain ⟨k, x⟩ := kv
    rw [List.lookup_cons] at h
    split at h
    · next heq =>
      cases h
      have hvk : v = k := eq_of_beq heq
      rw [hvk]
      exact List.mem_cons_self _ _
    · exact List.mem_cons_of_mem _ (ih h)

theorem substVars_isSome (ps : Params)
    (hb : ∀ kv ∈ ps, boundedFloat kv.2 = true) :
    ∀ (vs : List String) (s : String), (substVars ps vs s).isSome = true := by
  intro vs
  induction vs with
  | nil => intro s; rfl
  | cons v vs ih =>
    intro s
    unfold substVars
    cases hlk : ps.lookup v with
    | none => exact ih s
    | some val =>
      have hmem := mem_of_lookup hlk
      have hbv := hb (v, val) hmem
      cases val with
      | float q =>
        have hqlt : q < 1000 ^ 7 := by
          simpa [boundedFloat] using hbv
        have hsome := shortenNumber_isSome_of_lt hqlt
        cases hsh : shortenNumber (Value.float q) with
        | none => rw [hsh] at hsome; cases hsome
        | some sh =>
          dsimp only
          rw [hsh]
          exact ih _
      | int n => simp [boundedFloat] at hbv
      | str s2 => simp [boundedFloat] at hbv
      | bool b => simp [boundedFloat] at hbv

/-- C10 counterexample: the claim's totality statement is false.  With the
all-float64 binding `rt_p95 ↦ 1e22 = 10^22 ≥ 1000^7`, `shortenNumber`
panics — not on the type assertion, but on the suffix indexing
`"kmgtpe"[exp-1]` with `exp = 7` — so `Alert.Evaluate`, and the whole
`ShowAlerts` path that produces such a binding from an accumulated value,
panic (modelled as `none`): the display-formula rendering is not total on
all-float64 binding maps. -/
theorem c10_huge_float_panic_counterexample :
    shortenNumber (Value.float (10 ^ 22)) = none ∧
    Alert.evaluate (initialAlert "rt_p95 > 0.8" (.gt "rt_p95" (8 / 10)))
        [("rt_p95", Value.float (10 ^ 22))] = none ∧
    Monitor.showAlerts ⟨"www", .any, .any, [("rt_p95", ⟨[10 ^ 22]⟩)],
        [initialAlert "rt_p95 > 0.8" (.gt "rt_p95" (8 / 10))]⟩ = none := by
  decide

/-- C10 amended: for every binding map whose values are all float64 AND
below `1000 ^ 7`, the display-formula rendering is total (the unchecked
float64 type assertion never panics there, and the suffix index stays in
bounds); totality fails only for float64 values at or above `1000 ^ 7`,
where the suffix indexing — not the type assertion — panics. -/
theorem c10_all_float_bounded_total (a : Alert) (ps : Params)
    (hb : ∀ kv ∈ ps, boundedFloat kv.2 = true) :
    (a.evaluate ps).isSome = true ∧ (showAlertsStep a ps).isSome = true := by
  have hsub := substVars_isSome ps hb (exprVars a.expression) a.formula
  have heval : (a.evaluate ps).isSome = true := by
    unfold Alert.evaluate
    cases hs : substVars ps (exprVars a.expression) a.formula with
    | none => rw [hs] at hsub; cases hsub
    | some s =>
      cases hev : evalExpr a.expression ps with
      | error e => rfl
      | ok b => cases b <;> rfl
  refine ⟨heval, ?_⟩
  unfold showAlertsStep
  cases he : a.evaluate ps with
  | none => rw [he] at heval; cases heval
  | some r =>
    obtain ⟨a1, s⟩ := r
    dsimp only
    split_ifs <;> rfl

theorem c10_all_float_bounded_total_witness :
    ((initialAlert "rt_p95 > 0.8" (.gt "rt_p95" (8 / 10))).evaluate
        [("rt_p95", Value.float (9 / 10))]).isSome = true ∧
      (showAlertsStep (initialAlert "rt_p95 > 0.8" (.gt "rt_p95" (8 / 10)))
        [("rt_p95", Value.float (9 / 10))]).isSome = true :=
  c10_all_float_bounded_total
    (initialAlert "rt_p95 > 0.8" (.gt "rt_p95" (8 / 10)))
    [("rt_p95", Value.float (9 / 10))]
    (by
      intro kv hkv
      rw [List.mem_singleton] at hkv
      subst hkv
      decide)

end Skyline
